import Mathlib

/-!
Verification of the pdf-ai-notes service core: a shallow embedding of the
request/response schema (models.py), the summarization endpoint handler
(main.py), the prompt builder (prompts.py) and the settings snapshot
(config.py), with theorems settling the specified behavioural claims.
-/

namespace PdfNotes

/-- The set of characters stripped by the Python str.strip() method with no
arguments: the Unicode whitespace characters U+0009..U+000D, U+001C..U+0020,
U+0085, U+00A0, U+1680, U+2000..U+200A, U+2028, U+2029, U+202F, U+205F,
U+3000. -/
def pyIsSpace (c : Char) : Bool :=
  (0x9 ≤ c.toNat && c.toNat ≤ 0xd) || (0x1c ≤ c.toNat && c.toNat ≤ 0x20) ||
  c.toNat == 0x85 || c.toNat == 0xa0 || c.toNat == 0x1680 ||
  (0x2000 ≤ c.toNat && c.toNat ≤ 0x200a) || c.toNat == 0x2028 || c.toNat == 0x2029 ||
  c.toNat == 0x202f || c.toNat == 0x205f || c.toNat == 0x3000

/-- Python str.strip() on the character list: drop whitespace from the front,
then from the back. -/
def pyStripList (l : List Char) : List Char :=
  ((l.dropWhile pyIsSpace).reverse.dropWhile pyIsSpace).reverse

/-- Python str.strip() with no arguments, used by the handler on the model
content (main.py line 126, summary.strip()). -/
def pyStrip (s : String) : String := String.mk (pyStripList s.data)

/-- Python truthiness of an optional string: None and the empty string are
falsy (used by the prompt builder, prompts.py lines 44 and 46, and by the
handler on the content, main.py line 115). -/
def pyTruthyStr : Option String → Bool
  | none => false
  | some s => !(s == "")

/-- Python truthiness of an optional integer: None and 0 are falsy
(prompts.py line 46). -/
def pyTruthyInt : Option Int → Bool
  | none => false
  | some n => !(n == 0)

/-- SummarizeRequest from models.py: text plus optional context fields. -/
structure SummarizeRequest where
  text : String
  pdf_name : Option String
  page_number : Option Int
deriving DecidableEq

/-- The pydantic validation constraints of SummarizeRequest (models.py):
text has min_length 1; page_number, when present, has ge 1. FastAPI enforces
this before the handler body runs. -/
def validRequest (r : SummarizeRequest) : Bool :=
  decide (1 ≤ r.text.length) &&
    (match r.page_number with
     | none => true
     | some n => decide (1 ≤ n))

/-- SummarizeResponse from models.py: optional summary, success flag,
optional error message. -/
structure SummarizeResponse where
  summary : Option String
  success : Bool
  error : Option String
deriving DecidableEq

/-- Outcome of the outbound completion call inside the try block of the
handler: either the first choice content as returned (which may be null), or
the message of a raised exception. -/
inductive AdapterOutcome where
  | ok (content : Option String)
  | exn (msg : String)
deriving DecidableEq

/-- Result of the endpoint as seen by the HTTP caller: a 422 schema
rejection issued by FastAPI before the handler body, an HTTPException raised
by the handler, or a 200 response carrying a SummarizeResponse body. -/
inductive HandlerResult where
  | validationError
  | httpError (status : Nat) (detail : String)
  | response (status : Nat) (body : SummarizeResponse)
deriving DecidableEq

/-- Context lines built by build_summarize_prompt (prompts.py lines 43-47):
a Document line when pdf_name is truthy, then a Page line when page_number
is truthy. -/
def summarize_context_parts (pdf_name : Option String) (page_number : Option Int) :
    List String :=
  (if pyTruthyStr pdf_name then ["Document: " ++ pdf_name.getD ""] else []) ++
  (if pyTruthyInt page_number then ["Page: " ++ toString (page_number.getD 0)] else [])

/-- The context block of build_summarize_prompt (prompts.py line 49): the
parts joined by newlines when any exist, else the literal fallback. -/
def summarize_context (pdf_name : Option String) (page_number : Option Int) : String :=
  let parts := summarize_context_parts pdf_name page_number
  if parts.isEmpty then "Source: PDF page" else String.intercalate "\n" parts

/-- build_summarize_prompt from prompts.py: the f-string template with the
context block and the text interpolated. -/
def build_summarize_prompt (text : String) (pdf_name : Option String)
    (page_number : Option Int) : String :=
  summarize_context pdf_name page_number ++
  "\n\nPlease create clear, structured notes from this extracted PDF text:\n\n---\n" ++
  text ++
  "\n---\n\nGenerate comprehensive notes following the format specified in your system prompt."

/-- The body of summarize_text from main.py, as a function of the client
state and of the completion call viewed as a function from the user prompt
to its outcome: the 500 precondition check when the client is not
initialized, the except branch, the empty-content branch, and the success
branch with the stripped content. -/
def summarize_text (clientInitialized : Bool) (req : SummarizeRequest)
    (callModel : String → AdapterOutcome) : HandlerResult :=
  if !clientInitialized then
    .httpError 500 "AI service not available"
  else
    let user_prompt := build_summarize_prompt req.text req.pdf_name req.page_number
    match callModel user_prompt with
    | .exn e => .response 200 ⟨none, false, some ("Summarization failed: " ++ e)⟩
    | .ok content =>
      if !pyTruthyStr content then
        .response 200 ⟨none, false, some "AI model returned empty response"⟩
      else
        .response 200 ⟨some (pyStrip (content.getD "")), true, none⟩

/-- The full POST /api/summarize endpoint: FastAPI validates the body
against SummarizeRequest before invoking the handler body. -/
def apiSummarize (clientInitialized : Bool) (req : SummarizeRequest)
    (callModel : String → AdapterOutcome) : HandlerResult :=
  if !validRequest req then .validationError
  else summarize_text clientInitialized req callModel

/-- The settings snapshot from config.py: every field has a default or comes
from the environment; construction is total, with no validation of the API
key. MODEL_NAME uses the Python or-chain, so an empty value also falls back
to the default. -/
structure Settings where
  openrouter_api_key : Option String
  openrouter_base_url : String
  model_name : String
  max_tokens : Nat
  temperature : ℚ
  host : String
  port : Nat
  log_level : String
deriving DecidableEq

/-- Construction of the settings snapshot at startup from the process
environment (config.py lines 10-31). -/
def mkSettings (env : String → Option String) : Settings where
  openrouter_api_key := env "OPENROUTER_API_KEY"
  openrouter_base_url := "https://openrouter.ai/api/v1"
  model_name :=
    match env "MODEL_NAME" with
    | some s => if s == "" then "google/gemini-flash-1.5-8b" else s
    | none => "google/gemini-flash-1.5-8b"
  max_tokens := 2000
  temperature := 3/10
  host := "127.0.0.1"
  port := 8000
  log_level := "info"

/-- Modelled from the spec: the completion client adapter of section 4.3
wraps the third-party OpenRouter client, which is not part of the sources of
this repository. Per the spec, with the API key absent a request to the
adapter fails at call time with an authentication failure; with a key
present the outcome is whatever the remote provider returns, abstracted here
as a parameter. -/
def adapterComplete (s : Settings) (remote : String → String → String → AdapterOutcome)
    (systemPrompt userPrompt : String) : AdapterOutcome :=
  match s.openrouter_api_key with
  | none => .exn "authentication failure: API key not set"
  | some k => remote k systemPrompt userPrompt

theorem pyStripList_decomp (l : List Char) :
    l.takeWhile pyIsSpace ++ pyStripList l ++
        ((l.dropWhile pyIsSpace).reverse.takeWhile pyIsSpace).reverse = l ∧
      (l.takeWhile pyIsSpace).all pyIsSpace = true ∧
      ((l.dropWhile pyIsSpace).reverse.takeWhile pyIsSpace).reverse.all pyIsSpace = true := by
  refine ⟨?_, ?_, ?_⟩
  · have h2 := List.takeWhile_append_dropWhile pyIsSpace (l.dropWhile pyIsSpace).reverse
    have h3 := congrArg List.reverse h2
    simp only [List.reverse_append, List.reverse_reverse] at h3
    unfold pyStripList
    rw [List.append_assoc, h3, List.takeWhile_append_dropWhile]
  · simp only [List.all_eq_true]
    exact fun a ha => List.mem_takeWhile_imp ha
  · simp only [List.all_eq_true, List.mem_reverse]
    exact fun a ha => List.mem_takeWhile_imp ha

theorem pyStrip_decomp (s : String) :
    ∃ p q : String, s = p ++ pyStrip s ++ q ∧
      p.data.all pyIsSpace = true ∧ q.data.all pyIsSpace = true := by
  cases s with
  | mk l =>
    obtain ⟨h1, h2, h3⟩ := pyStripList_decomp l
    exact ⟨String.mk (l.takeWhile pyIsSpace),
      String.mk ((l.dropWhile pyIsSpace).reverse.takeWhile pyIsSpace).reverse,
      (congrArg String.mk h1).symm, h2, h3⟩

/-- Claim C1: with an initialized client and a request that passed
validation, a completion call returning non-empty first-choice content S
yields the 200 envelope with success true, summary equal to the stripped S
and error null; stripping removes only a leading and a trailing run of
whitespace, leaving the interior of S verbatim. -/
theorem C1_success_envelope (req : SummarizeRequest) (callModel : String → AdapterOutcome)
    (S : String) (hv : validRequest req = true)
    (hc : callModel (build_summarize_prompt req.text req.pdf_name req.page_number) =
      .ok (some S))
    (hS : S ≠ "") :
    apiSummarize true req callModel = .response 200 ⟨some (pyStrip S), true, none⟩ ∧
    ∃ p q : String, S = p ++ pyStrip S ++ q ∧
      p.data.all pyIsSpace = true ∧ q.data.all pyIsSpace = true := by
  refine ⟨?_, pyStrip_decomp S⟩
  have hS2 : (S == "") = false := by
    simpa using hS
  simp [apiSummarize, summarize_text, hv, hc, pyTruthyStr, hS2]

/-- Concrete instance of C1_success_envelope. -/
theorem C1_success_envelope_witness :
    apiSummarize true ⟨"hello", none, none⟩ (fun _ => .ok (some " hi "))
      = .response 200 ⟨some (pyStrip " hi "), true, none⟩ ∧
    ∃ p q : String, " hi " = p ++ pyStrip " hi " ++ q ∧
      p.data.all pyIsSpace = true ∧ q.data.all pyIsSpace = true :=
  C1_success_envelope ⟨"hello", none, none⟩ (fun _ => .ok (some " hi ")) " hi "
    (by decide) rfl (by decide)

/-- Claim C2: with an initialized client and a validated request, a raised
completion failure with message M yields HTTP status 200 and the envelope
with success false, summary null and the prefixed error message. -/
theorem C2_failure_envelope (req : SummarizeRequest) (callModel : String → AdapterOutcome)
    (e : String) (hv : validRequest req = true)
    (hc : callModel (build_summarize_prompt req.text req.pdf_name req.page_number) = .exn e) :
    apiSummarize true req callModel =
      .response 200 ⟨none, false, some ("Summarization failed: " ++ e)⟩ := by
  simp [apiSummarize, summarize_text, hv, hc]

/-- Concrete instance of C2_failure_envelope. -/
theorem C2_failure_envelope_witness :
    apiSummarize true ⟨"x", some "notes.pdf", some 3⟩ (fun _ => .exn "timed out") =
      .response 200 ⟨none, false, some ("Summarization failed: " ++ "timed out")⟩ :=
  C2_failure_envelope ⟨"x", some "notes.pdf", some 3⟩ (fun _ => .exn "timed out")
    "timed out" (by decide) rfl

/-- Claim C3: with an initialized client and a validated request, a
successful completion call whose first-choice content is the empty string
yields HTTP status 200 and the envelope with success false, summary null and
the fixed empty-response error message. -/
theorem C3_empty_content (req : SummarizeRequest) (callModel : String → AdapterOutcome)
    (hv : validRequest req = true)
    (hc : callModel (build_summarize_prompt req.text req.pdf_name req.page_number) =
      .ok (some "")) :
    apiSummarize true req callModel =
      .response 200 ⟨none, false, some "AI model returned empty response"⟩ := by
  simp [apiSummarize, summarize_text, hv, hc, pyTruthyStr]

/-- Concrete instance of C3_empty_content. -/
theorem C3_empty_content_witness :
    apiSummarize true ⟨"hello", none, none⟩ (fun _ => .ok (some "")) =
      .response 200 ⟨none, false, some "AI model returned empty response"⟩ :=
  C3_empty_content ⟨"hello", none, none⟩ (fun _ => .ok (some "")) (by decide) rfl

/-- Claim C4 (counterexample): the claim that success true implies a
non-empty summary fails on the code. Whitespace-only content " " is truthy
in Python, so the handler takes the success branch and strips it to the
empty string: the constructed envelope has success true and summary equal
to the empty string. -/
theorem C4_counterexample :
    apiSummarize true ⟨"t", none, none⟩ (fun _ => .ok (some " ")) =
      .response 200 ⟨some "", true, none⟩ ∧ ("" : String).length = 0 := by
  constructor
  · rfl
  · rfl

/-- Claim C4 (amended): in every response body the handler constructs,
success is true iff the completion call returned non-empty content; success
true implies the summary is non-null (though possibly empty after stripping)
and the error is null; success false implies the summary is null and the
error is non-null. -/
theorem C4_amended (ci : Bool) (req : SummarizeRequest)
    (callModel : String → AdapterOutcome) (status : Nat) (body : SummarizeResponse)
    (h : apiSummarize ci req callModel = .response status body) :
    (body.success = true → (∃ s, body.summary = some s) ∧ body.error = none) ∧
    (body.success = false → body.summary = none ∧ ∃ e, body.error = some e) ∧
    (body.success = true ↔
      ∃ S, callModel (build_summarize_prompt req.text req.pdf_name req.page_number) =
        .ok (some S) ∧ S ≠ "") := by
  cases hvb : validRequest req with
  | false => simp [apiSummarize, hvb] at h
  | true =>
    cases ci with
    | false => simp [apiSummarize, summarize_text, hvb] at h
    | true =>
      cases hc : callModel (build_summarize_prompt req.text req.pdf_name req.page_number) with
      | exn e =>
        simp [apiSummarize, summarize_text, hvb, hc] at h
        obtain ⟨hst, hb⟩ := h
        subst hb
        refine ⟨by simp, fun _ => ⟨rfl, "Summarization failed: " ++ e, rfl⟩, ?_⟩
        simp [hc]
      | ok content =>
        cases content with
        | none =>
          simp [apiSummarize, summarize_text, hvb, hc, pyTruthyStr] at h
          obtain ⟨hst, hb⟩ := h
          subst hb
          refine ⟨by simp, fun _ => ⟨rfl, _, rfl⟩, ?_⟩
          simp [hc]
        | some s =>
          cases hse : s == "" with
          | true =>
            have hs : s = "" := by simpa using hse
            subst hs
            simp [apiSummarize, summarize_text, hvb, hc, pyTruthyStr] at h
            obtain ⟨hst, hb⟩ := h
            subst hb
            refine ⟨by simp, fun _ => ⟨rfl, _, rfl⟩, ?_⟩
            simp [hc]
          | false =>
            simp [apiSummarize, summarize_text, hvb, hc, pyTruthyStr, hse] at h
            obtain ⟨hst, hb⟩ := h
            subst hb
            refine ⟨fun _ => ⟨⟨pyStrip s, rfl⟩, rfl⟩, by simp, ?_⟩
            simp [hc]
            exact fun hs => by simp [hs] at hse

/-- Concrete instance of C4_amended. -/
theorem C4_amended_witness :
    ((⟨some (pyStrip "hi"), true, none⟩ : SummarizeResponse).success = true →
      (∃ s, (⟨some (pyStrip "hi"), true, none⟩ : SummarizeResponse).summary = some s) ∧
      (⟨some (pyStrip "hi"), true, none⟩ : SummarizeResponse).error = none) ∧
    ((⟨some (pyStrip "hi"), true, none⟩ : SummarizeResponse).success = false →
      (⟨some (pyStrip "hi"), true, none⟩ : SummarizeResponse).summary = none ∧
      ∃ e, (⟨some (pyStrip "hi"), true, none⟩ : SummarizeResponse).error = some e) ∧
    ((⟨some (pyStrip "hi"), true, none⟩ : SummarizeResponse).success = true ↔
      ∃ S, (fun _ => AdapterOutcome.ok (some "hi"))
          (build_summarize_prompt (SummarizeRequest.mk "t" none none).text
            (SummarizeRequest.mk "t" none none).pdf_name
            (SummarizeRequest.mk "t" none none).page_number) =
        .ok (some S) ∧ S ≠ "") :=
  C4_amended true ⟨"t", none, none⟩ (fun _ => .ok (some "hi")) 200
    ⟨some (pyStrip "hi"), true, none⟩ rfl

/-- Claim C5 (counterexample): the claim that an uninitialized client yields
the 500 service error regardless of body validity fails on the code: with an
invalid body (empty text) FastAPI rejects the request with the 422 schema
validation error before the handler body runs, so the 500 with detail about
AI service availability is never produced. -/
theorem C5_counterexample :
    apiSummarize false ⟨"", none, none⟩ (fun _ => .ok none) = .validationError ∧
    HandlerResult.validationError ≠ .httpError 500 "AI service not available" := by
  constructor
  · rfl
  · simp

/-- Claim C5 (amended): for every request with a VALID body made while the
completion client was never initialized, the endpoint returns the 500 error
with detail about AI service availability, for every adapter behaviour. -/
theorem C5_amended (req : SummarizeRequest) (callModel : String → AdapterOutcome)
    (hv : validRequest req = true) :
    apiSummarize false req callModel = .httpError 500 "AI service not available" := by
  simp [apiSummarize, summarize_text, hv]

/-- Concrete instance of C5_amended. -/
theorem C5_amended_witness :
    apiSummarize false ⟨"hello", none, none⟩ (fun _ => .ok (some "s")) =
      .httpError 500 "AI service not available" :=
  C5_amended ⟨"hello", none, none⟩ (fun _ => .ok (some "s")) (by decide)

/-- Claim C7: a request whose text is empty or whose page_number is below 1
is rejected with the 422 schema-validation error, for every client state and
every adapter behaviour: the handler body never runs and the completion
call is never consulted. -/
theorem C7_validation (ci : Bool) (req : SummarizeRequest)
    (callModel : String → AdapterOutcome)
    (h : req.text.length = 0 ∨ ∃ n, req.page_number = some n ∧ n < 1) :
    apiSummarize ci req callModel = .validationError := by
  have hv : validRequest req = false := by
    rcases h with h0 | ⟨n, hn, hlt⟩
    · simp [validRequest, h0]
    · simp only [validRequest, hn, Bool.and_eq_false_iff]
      right
      simpa using hlt
  simp [apiSummarize, hv]

/-- Concrete instances of C7_validation: empty text, and page number 0. -/
theorem C7_validation_witness :
    apiSummarize true ⟨"", none, none⟩ (fun _ => .ok (some "s")) = .validationError ∧
    apiSummarize true ⟨"t", none, some 0⟩ (fun _ => .exn "e") = .validationError :=
  ⟨C7_validation true ⟨"", none, none⟩ (fun _ => .ok (some "s")) (Or.inl (by decide)),
   C7_validation true ⟨"t", none, some 0⟩ (fun _ => .exn "e")
     (Or.inr ⟨0, rfl, by decide⟩)⟩

/-- Claim C6: build_summarize_prompt is deterministic, identical inputs
yielding an identical string, and its output contains the literal text
unmodified, surrounded by the delimiter markers: a line of three dashes
before it and a line of three dashes after it. -/
theorem C6_prompt_shape (t₁ t₂ : String) (n₁ n₂ : Option String) (p₁ p₂ : Option Int)
    (ht : t₁ = t₂) (hn : n₁ = n₂) (hp : p₁ = p₂) :
    build_summarize_prompt t₁ n₁ p₁ = build_summarize_prompt t₂ n₂ p₂ ∧
    ∃ pre post : String,
      build_summarize_prompt t₁ n₁ p₁ = pre ++ ("---\n" ++ t₁ ++ "\n---") ++ post := by
  subst ht hn hp
  refine ⟨rfl,
    summarize_context n₁ p₁ ++
      "\n\nPlease create clear, structured notes from this extracted PDF text:\n\n",
    "\n\nGenerate comprehensive notes following the format specified in your system prompt.",
    ?_⟩
  have hA : ("\n\nPlease create clear, structured notes from this extracted PDF text:\n\n---\n" : String) =
      "\n\nPlease create clear, structured notes from this extracted PDF text:\n\n" ++ "---\n" := rfl
  have hB : ("\n---\n\nGenerate comprehensive notes following the format specified in your system prompt." : String) =
      "\n---" ++ "\n\nGenerate comprehensive notes following the format specified in your system prompt." := rfl
  unfold build_summarize_prompt
  simp only [hA, hB, String.append_assoc]

/-- Concrete instance of C6_prompt_shape. -/
theorem C6_prompt_shape_witness :
    build_summarize_prompt "x" (some "n.pdf") (some 3) =
      build_summarize_prompt "x" (some "n.pdf") (some 3) ∧
    ∃ pre post : String,
      build_summarize_prompt "x" (some "n.pdf") (some 3) =
        pre ++ ("---\n" ++ "x" ++ "\n---") ++ post :=
  C6_prompt_shape "x" "x" (some "n.pdf") (some "n.pdf") (some 3) (some 3) rfl rfl rfl

/-- Claim C8 (counterexample): the claim that both fields being given yields
two context lines fails on the code: with pdf_name given as the empty
string and page_number given as 3, the context is the single line about the
page, not the two lines the claim requires, because presence is decided by
Python truthiness. -/
theorem C8_counterexample :
    summarize_context (some "") (some 3) = "Page: 3" ∧
    ("Page: 3" : String) ≠ "Document: \nPage: 3" := by
  constructor
  · rfl
  · simp

/-- Claim C8 (amended): the context prefix is decided by truthiness of the
fields: if pdf_name is present and non-empty and page_number is present and
non-zero, two lines; if exactly one field is truthy, that single line; if
neither is truthy, the literal fallback line. -/
theorem C8_amended (pdf : Option String) (page : Option Int) :
    (pyTruthyStr pdf = true → pyTruthyInt page = true →
      summarize_context pdf page =
        ("Document: " ++ pdf.getD "" ++ "\n") ++ ("Page: " ++ toString (page.getD 0))) ∧
    (pyTruthyStr pdf = true → pyTruthyInt page = false →
      summarize_context pdf page = "Document: " ++ pdf.getD "") ∧
    (pyTruthyStr pdf = false → pyTruthyInt page = true →
      summarize_context pdf page = "Page: " ++ toString (page.getD 0)) ∧
    (pyTruthyStr pdf = false → pyTruthyInt page = false →
      summarize_context pdf page = "Source: PDF page") := by
  refine ⟨fun h1 h2 => ?_, fun h1 h2 => ?_, fun h1 h2 => ?_, fun h1 h2 => ?_⟩ <;>
    · simp only [summarize_context, summarize_context_parts, h1, h2]
      rfl

/-- Concrete instances of C8_amended: both fields truthy, and only one. -/
theorem C8_amended_witness :
    summarize_context (some "notes.pdf") (some 3) =
      ("Document: " ++ (some "notes.pdf").getD "" ++ "\n") ++
        ("Page: " ++ toString ((some (3 : Int)).getD 0)) ∧
    summarize_context (none : Option String) (none : Option Int) = "Source: PDF page" :=
  ⟨(C8_amended (some "notes.pdf") (some 3)).1 (by decide) (by decide),
   (C8_amended none none).2.2.2 rfl rfl⟩

/-- Claim C9: with the API key environment variable absent, the settings
snapshot still constructs at startup, storing a null key with no separate
validation failure, and a request to the completion adapter fails at call
time. The adapter itself wraps a third-party client outside this
repository, so its call-time behaviour follows the contract in the spec. -/
theorem C9_config_no_key (env : String → Option String)
    (remote : String → String → String → AdapterOutcome) (sys usr : String)
    (h : env "OPENROUTER_API_KEY" = none) :
    (mkSettings env).openrouter_api_key = none ∧
    ∃ m, adapterComplete (mkSettings env) remote sys usr = .exn m := by
  refine ⟨by simp [mkSettings, h], "authentication failure: API key not set", ?_⟩
  simp [adapterComplete, mkSettings, h]

/-- Concrete instance of C9_config_no_key. -/
theorem C9_config_no_key_witness :
    (mkSettings (fun _ => none)).openrouter_api_key = none ∧
    ∃ m, adapterComplete (mkSettings (fun _ => none))
        (fun _ _ _ => .ok none) "s" "u" = .exn m :=
  C9_config_no_key (fun _ => none) (fun _ _ _ => .ok none) "s" "u" rfl

/-- Claim C10: an empty-string pdf_name with page_number absent is treated
as not given: the context equals the literal fallback line, and the whole
prompt coincides with the prompt built with pdf_name absent. -/
theorem C10_empty_pdf_name (text : String) :
    summarize_context (some "") none = "Source: PDF page" ∧
    build_summarize_prompt text (some "") none = build_summarize_prompt text none none := by
  exact ⟨rfl, rfl⟩

end PdfNotes
